import Mathlib

/-!
Verification of the AIRFLOW fetch/load pipeline
(`src/Airflow_y_files/fetchload.py`, `src/Airflow_y_files/hitwise.py`).

The Python code is shallowly embedded: the filesystem, the S3 object store
and the database are explicit state values, Python exceptions are an
explicit error type, and every pipeline operation returns the trace of the
observable events it performed together with the resulting state.
-/

namespace Airflow

/-- File contents (the bytes/characters of a staged file). -/
abbrev Content := List Char

/-- A local path, as its list of components (Python `pathlib.Path` segments,
built with the `/` operator in `FetchLoadProcessor.__init__`). -/
abbrev LPath := List String

/-- A SQL statement, kept opaque. -/
abbrev Stmt := String

/-- Python exceptions relevant to the embedded code.  All constructors up to
`typeError` model subclasses of `OSError`; `typeError` and `transportError`
model non-OSError exceptions (contract violations, network failures). -/
inductive PyErr
  | fileNotFoundError
  | isADirectoryError
  | notADirectoryError
  | dirNotEmptyError
  | typeError
  | transportError
  deriving DecidableEq, Repr

/-- Whether an exception is an `OSError` (Python's `FileNotFoundError`,
`IsADirectoryError`, `NotADirectoryError` and the "directory not empty"
`OSError` are all `OSError` subclasses). -/
def PyErr.isOSError : PyErr → Bool
  | .fileNotFoundError => true
  | .isADirectoryError => true
  | .notADirectoryError => true
  | .dirNotEmptyError => true
  | .typeError => false
  | .transportError => false

/-! ### Filesystem model

A filesystem is a finite set of files (path with contents) and a finite set
of directories.  Paths are component lists; `p` lies strictly inside `d`
when `d` is a proper prefix of `p`. -/

/-- `properlyInside d p` holds when path `p` is strictly below directory `d`. -/
def properlyInside (d p : LPath) : Bool :=
  decide (d ≠ p) && decide (p.take d.length = d)

structure FS where
  files : List (LPath × Content)
  dirs : List LPath
  deriving DecidableEq, Repr

def FS.empty : FS := ⟨[], []⟩

def FS.isFile (fs : FS) (p : LPath) : Bool :=
  (fs.files.lookup p).isSome

def FS.isDir (fs : FS) (p : LPath) : Bool :=
  fs.dirs.contains p

def FS.readFile (fs : FS) (p : LPath) : Option Content :=
  fs.files.lookup p

/-- Whether anything (file or directory) lies strictly inside directory `p`:
`Path.rmdir` fails on such a directory. -/
def FS.dirNonempty (fs : FS) (p : LPath) : Bool :=
  fs.files.any (fun f => properlyInside p f.1) || fs.dirs.any (fun d => properlyInside p d)

/-- `Path.unlink`: removes the file at `p`; raises `FileNotFoundError` when
nothing is there and `IsADirectoryError` when `p` is a directory. -/
def FS.unlink (fs : FS) (p : LPath) : Except PyErr FS :=
  if fs.isFile p then
    .ok { fs with files := fs.files.filter (fun f => !(f.1 == p)) }
  else if fs.isDir p then .error .isADirectoryError
  else .error .fileNotFoundError

/-- `Path.rmdir`: removes the directory at `p` only when it is empty;
raises an `OSError` when it is not empty, `NotADirectoryError` when `p` is a
file, `FileNotFoundError` when nothing is there. -/
def FS.rmdir (fs : FS) (p : LPath) : Except PyErr FS :=
  if fs.isDir p then
    if fs.dirNonempty p then .error .dirNotEmptyError
    else .ok { fs with dirs := fs.dirs.filter (fun d => !(d == p)) }
  else if fs.isFile p then .error .notADirectoryError
  else .error .fileNotFoundError

/-- `Path.mkdir(parents=True, exist_ok=True)`: registers `p` and every
nonempty ancestor of `p` as directories.  (A collision between an ancestor
and an existing file is not modelled; the pipeline only creates directories
under its staging root.) -/
def FS.mkdirParents (fs : FS) (p : LPath) : FS :=
  let ancestors := (List.range p.length).map (fun n => p.take (n + 1))
  { fs with dirs := fs.dirs ++ ancestors.filter (fun d => !fs.dirs.contains d) }

/-- `open(mode='w' | 'wb' | 'w+')` followed by writing: creates or truncates
the file at `p` and leaves `c` as its contents. -/
def FS.writeFile (fs : FS) (p : LPath) (c : Content) : FS :=
  { fs with files := (p, c) :: fs.files.filter (fun f => !(f.1 == p)) }

/-! ### rmdir_if_empty and _cleanup (fetchload.py lines 108-131)

`rmdir_if_empty` wraps `Path.rmdir` in `except (OSError, FileNotFoundError)`;
since every `FileNotFoundError` is an `OSError`, every OSError-family
exception is caught.  `_cleanup` wraps `Path.unlink` in
`except (FileNotFoundError, IsADirectoryError)` — only those two are caught —
and then calls `rmdir_if_empty` on the staging folder. -/

/-- `FetchLoadProcessor.rmdir_if_empty`, with the uncaught exceptions (if
any) propagated in the `Except` layer. -/
def rmdirIfEmptyE (fs : FS) (p : LPath) : Except PyErr FS :=
  match fs.rmdir p with
  | .ok fs1 => .ok fs1
  | .error e => if e.isOSError then .ok fs else .error e

/-- `FetchLoadProcessor._cleanup`, with the uncaught exceptions (if any)
propagated in the `Except` layer. -/
def cleanupE (fs : FS) (filePath localFolder : LPath) : Except PyErr FS :=
  match fs.unlink filePath with
  | .ok fs1 => rmdirIfEmptyE fs1 localFolder
  | .error .fileNotFoundError => rmdirIfEmptyE fs localFolder
  | .error .isADirectoryError => rmdirIfEmptyE fs localFolder
  | .error e => .error e

/-- `_cleanup` as a total state transformer (justified by the never-raises
part of the C5 theorem). -/
def cleanup (fs : FS) (filePath localFolder : LPath) : FS :=
  match cleanupE fs filePath localFolder with
  | .ok fs1 => fs1
  | .error _ => fs

/-- The `try: unlink / except (FileNotFoundError, IsADirectoryError)` step
of `_cleanup` as a total state transformer. -/
def unlinkCaught (fs : FS) (p : LPath) : FS :=
  match fs.unlink p with
  | .ok fs1 => fs1
  | .error _ => fs

/-- `rmdir_if_empty` as a total state transformer. -/
def rmdirIfEmpty (fs : FS) (p : LPath) : FS :=
  match fs.rmdir p with
  | .ok fs1 => fs1
  | .error _ => fs

/-! ### Dates and path resolution (fetchload.py lines 84-106) -/

/-- A calendar date (Python `datetime.date`). -/
structure Date where
  year : Nat
  month : Nat
  day : Nat
  deriving DecidableEq, Repr

/-- Zero-pads the decimal representation of `n` to width `w`
(`strftime`-style field formatting). -/
def padNat (w n : Nat) : String :=
  let s := toString n
  String.mk (List.replicate (w - s.length) '0') ++ s

/-- `run_date.strftime('%Y%m%d')`. -/
def Date.yyyymmdd (d : Date) : String :=
  padNat 4 d.year ++ padNat 2 d.month ++ padNat 2 d.day

/-- `datetime.strftime(run_date, '%Y-%m-%d')`. -/
def Date.isoString (d : Date) : String :=
  padNat 4 d.year ++ "-" ++ padNat 2 d.month ++ "-" ++ padNat 2 d.day

/-- The read-only configuration module `config` consumed as `cfg.*`.
(The SFTP server fields are irrelevant to the verified properties and
omitted.) -/
structure Cfg where
  ETL_DATA_HOME : String
  ETL_S3_BUCKET : String
  FETCH_DATA_FROM_SOURCE : Bool
  deriving DecidableEq, Repr

/-- Python truthiness of the `filename` argument (`if filename:`): `None`
and the empty string are falsy. -/
def truthy : Option String → Bool
  | none => false
  | some s => !s.isEmpty

/-- The per-run fields of `FetchLoadProcessor` set by `__init__`. -/
structure Proc where
  run_date : Date
  run_date_string : String
  run_date_YYYYMMDD : String
  local_folder : LPath
  file_path : LPath
  s3_path : String
  api_return_type : String
  deriving DecidableEq, Repr

/-- `FetchLoadProcessor.__init__` (fetchload.py lines 84-106): derives the
local staging path and the S3 archive key from the run date, source system
and optional filename. -/
def mkProcessor (cfg : Cfg) (run_date : Date) (source_system : String)
    (filename : Option String) (api_return_type : String) : Proc :=
  let ymd := run_date.yyyymmdd
  let local_folder : LPath := [cfg.ETL_DATA_HOME, source_system, ymd]
  if h : truthy filename then
    let fn := filename.get (by cases filename <;> simp_all [truthy])
    { run_date := run_date
      run_date_string := run_date.isoString
      run_date_YYYYMMDD := ymd
      local_folder := local_folder
      file_path := local_folder ++ [fn]
      s3_path := cfg.ETL_S3_BUCKET ++ "/" ++ source_system ++ "/" ++ ymd ++ "/" ++ fn
      api_return_type := api_return_type }
  else
    { run_date := run_date
      run_date_string := run_date.isoString
      run_date_YYYYMMDD := ymd
      local_folder := local_folder
      file_path := local_folder
      s3_path := cfg.ETL_S3_BUCKET ++ "/" ++ source_system ++ "/" ++ ymd
      api_return_type := api_return_type }

/-- The relative path structure `source-system/YYYYMMDD[/filename]` shared
by the staging path and the archive key. -/
def relComponents (source_system : String) (run_date : Date)
    (filename : Option String) : List String :=
  if h : truthy filename then
    [source_system, run_date.yyyymmdd, filename.get (by cases filename <;> simp_all [truthy])]
  else
    [source_system, run_date.yyyymmdd]

/-- Renders a component list as a `/`-separated object-store key. -/
def renderKey (cs : List String) : String :=
  String.intercalate "/" cs

/-! ### Payloads and staging encodings (fetchload.py lines 176-189)

`fetch_and_archive_to_s3` dispatches on the string tag `api_return_type`:
`'generator'` serializes a row sequence with `csv.writer(f, delimiter=',')`,
`'list'` writes text with `f.write` in text mode, and any other tag (the
concrete sources use `'bytes'`) writes raw bytes in binary mode.  The csv
writer terminates every row with a line terminator; fields are joined by the
`','` delimiter. -/

/-- One csv row: fields joined by the `,` delimiter. -/
def csvRow (r : List Content) : Content :=
  List.intercalate [','] r

/-- `csv.writer(...).writerows`: every row is followed by the row
terminator (modelled as a single newline character). -/
def csvEncode (rows : List (List Content)) : Content :=
  (rows.map (fun r => csvRow r ++ ['\n'])).flatten

/-- `csv.reader` on delimiter-free fields: split into terminated lines,
then split each line on the delimiter. -/
def csvDecode (c : Content) : List (List Content) :=
  ((c.splitOn '\n').dropLast).map (fun line => line.splitOn ',')

/-- The payload returned by a `fetch_from_api` implementation: raw bytes,
raw text, or a finite row sequence. -/
inductive Payload
  | bytes (b : Content)
  | text (t : Content)
  | rows (r : List (List Content))
  deriving DecidableEq, Repr

/-- The staged file contents produced for a payload under a declared
`api_return_type` tag; a payload whose shape does not match the declared
tag makes the corresponding Python write raise a `TypeError`. -/
def stagedContent (api_return_type : String) (p : Payload) : Except PyErr Content :=
  if api_return_type = "generator" then
    match p with
    | .rows r => .ok (csvEncode r)
    | _ => .error .typeError
  else if api_return_type = "list" then
    match p with
    | .text t => .ok t
    | _ => .error .typeError
  else
    match p with
    | .bytes b => .ok b
    | _ => .error .typeError

/-- Reading a staged file back through the decode matching the declared
tag. -/
def decodePayload (api_return_type : String) (c : Content) : Payload :=
  if api_return_type = "generator" then .rows (csvDecode c)
  else if api_return_type = "list" then .text c
  else .bytes c

/-! ### Pipeline state, events and database sessions -/

/-- Observable events of a pipeline run. -/
inductive Ev
  | logEv
  | mkdirEv
  | apiRead
  | fsWrite (p : LPath) (c : Content)
  | s3Put (key : String) (c : Content)
  | s3PutCli
  | s3Get (key : String)
  | s3GetCli
  | sshGet (file : String)
  | checkFilesEv
  | transformEv
  | dbExec (s : Stmt)
  | dbCommit
  | cleanupEv
  | constructEv
  deriving DecidableEq, Repr

/-- Modelled from the spec: `pymodules.dbwrapper.PostgresqlWrapper` is
repository code that is not under src/.  Per §4.5 and §7 of the spec,
`execddl`/`csv_to_table` statements run inside a transaction and become
visible only when `commit` is called; a load that aborts before commit
leaves the warehouse with only the previously committed statements. -/
structure DBSession where
  committed : List Stmt
  pending : List Stmt
  deriving DecidableEq, Repr

/-- Executes one statement inside the current transaction. -/
def DBSession.exec (db : DBSession) (s : Stmt) : DBSession :=
  { db with pending := db.pending ++ [s] }

/-- Executes a list of statements inside the current transaction. -/
def DBSession.execAll (db : DBSession) (ss : List Stmt) : DBSession :=
  ss.foldl DBSession.exec db

/-- `db.commit()`: makes the pending statements durable. -/
def DBSession.commit (db : DBSession) : DBSession :=
  { committed := db.committed ++ db.pending, pending := [] }

/-- The world state threaded through a run: local filesystem, S3 object
store (key to contents), and the durably committed warehouse statements. -/
structure St where
  fs : FS
  s3 : List (String × Content)
  db : List Stmt
  deriving DecidableEq, Repr

/-- The result of a pipeline operation: its event trace, the final state,
and the exception it propagated, if any. -/
structure Outcome where
  trace : List Ev
  st : St
  err : Option PyErr
  deriving DecidableEq, Repr

/-- Stores an object in the S3 map, replacing any previous value. -/
def s3put (s3 : List (String × Content)) (key : String) (c : Content) :
    List (String × Content) :=
  (key, c) :: s3.filter (fun kv => !(kv.1 == key))

/-! ### Fetch phase (fetchload.py lines 133-189) -/

/-- `FetchLoadProcessor.put_to_s3` (lines 150-153): uploads the staged file
to the archive key, then runs `_cleanup`.  `putFails` injects a transport
failure of `self.s3.put`; on failure the exception propagates and
`_cleanup` is never reached. -/
def putToS3 (p : Proc) (putFails : Bool) (c : Content) (st : St) : Outcome :=
  if putFails then ⟨[.s3Put p.s3_path c], st, some .transportError⟩
  else
    let st1 := { st with s3 := s3put st.s3 p.s3_path c }
    ⟨[.s3Put p.s3_path c, .cleanupEv],
      { st1 with fs := cleanup st1.fs p.file_path p.local_folder }, none⟩

/-- `FetchLoadProcessor.fetch_and_archive_to_s3` (lines 168-189).  `fetch`
is the result of the overridden `fetch_from_api` (a payload, or the
exception it raised).  In the `'generator'` branch the fetch happens before
the staging file is opened; in the `'list'` and binary branches the file is
opened (created empty) first and the fetch result is written to it. -/
def fetchAndArchive (cfg : Cfg) (p : Proc) (fetch : Except PyErr Payload)
    (putFails : Bool) (st : St) : Outcome :=
  if !cfg.FETCH_DATA_FROM_SOURCE then ⟨[.logEv], st, none⟩
  else
    let st1 := { st with fs := st.fs.mkdirParents p.local_folder }
    if p.api_return_type = "generator" then
      match fetch with
      | .error e => ⟨[.mkdirEv, .apiRead], st1, some e⟩
      | .ok (.rows r) =>
        let c := csvEncode r
        let st2 := { st1 with fs := st1.fs.writeFile p.file_path c }
        let o := putToS3 p putFails c st2
        ⟨[.mkdirEv, .apiRead, .fsWrite p.file_path c] ++ o.trace, o.st, o.err⟩
      | .ok _ => ⟨[.mkdirEv, .apiRead], st1, some .typeError⟩
    else if p.api_return_type = "list" then
      let st2 := { st1 with fs := st1.fs.writeFile p.file_path [] }
      match fetch with
      | .error e => ⟨[.mkdirEv, .apiRead], st2, some e⟩
      | .ok (.text t) =>
        let st3 := { st2 with fs := st2.fs.writeFile p.file_path t }
        let o := putToS3 p putFails t st3
        ⟨[.mkdirEv, .apiRead, .fsWrite p.file_path t] ++ o.trace, o.st, o.err⟩
      | .ok _ => ⟨[.mkdirEv, .apiRead], st2, some .typeError⟩
    else
      let st2 := { st1 with fs := st1.fs.writeFile p.file_path [] }
      match fetch with
      | .error e => ⟨[.mkdirEv, .apiRead], st2, some e⟩
      | .ok (.bytes b) =>
        let st3 := { st2 with fs := st2.fs.writeFile p.file_path b }
        let o := putToS3 p putFails b st3
        ⟨[.mkdirEv, .apiRead, .fsWrite p.file_path b] ++ o.trace, o.st, o.err⟩
      | .ok _ => ⟨[.mkdirEv, .apiRead], st2, some .typeError⟩

/-- `FetchLoadProcessor.sftp_fetch_and_archive_to_s3` (lines 133-148).
`fileList` is the result of `fetch_from_api` (remote file identifiers) and
`remote` gives each remote file's contents.  The recursive `aws s3 cp`
upload of `put_to_s3_using_cli` is modelled from the spec
(`pymodules.command.local_cmd` is repository code not under src/): every
staged file below the staging folder is copied to the archive under the
derived key, then each staged file is unlinked. -/
def sftpFetchAndArchive (cfg : Cfg) (p : Proc)
    (fileList : Except PyErr (List String)) (remote : String → Content)
    (st : St) : Outcome :=
  if !cfg.FETCH_DATA_FROM_SOURCE then ⟨[.logEv], st, none⟩
  else
    let st1 := { st with fs := st.fs.mkdirParents p.local_folder }
    match fileList with
    | .error e => ⟨[.mkdirEv, .apiRead], st1, some e⟩
    | .ok files =>
      let st2 := files.foldl
        (fun s f => { s with fs := s.fs.writeFile (p.local_folder ++ [f]) (remote f) }) st1
      let getEvs := files.map Ev.sshGet
      let staged := st2.fs.files.filter (fun kv => properlyInside p.local_folder kv.1)
      let key := fun (path : LPath) =>
        p.s3_path ++ "/" ++ renderKey (path.drop p.local_folder.length)
      let s3u := staged.foldl (fun a kv => s3put a (key kv.1) kv.2) st2.s3
      let fs1 :=
        { st2.fs with files := st2.fs.files.filter (fun kv => !properlyInside p.local_folder kv.1) }
      ⟨[.mkdirEv, .apiRead] ++ getEvs ++ [.checkFilesEv, .s3PutCli],
        { st2 with s3 := s3u, fs := fs1 }, none⟩

/-! ### Load phase (fetchload.py lines 195-247)

The overridable hooks are parameters: `transform` is the exception raised
by `pre_copy_transform` (or `none` for the default no-op), `schemaStmts`
are the DDL statements `pre_copy_sql` executes against the session before
optionally raising `schemaErr`, and `copyStmts`/`copyErr` play the same
role for `copy_to_db`. -/

/-- `FetchLoadProcessor.load_from_s3_to_db` (lines 221-231): download the
archived object, transform, open a session, run the schema and copy hooks,
commit, then `_cleanup`.  The download raises when the archive object is
absent. -/
def loadFromS3ToDb (p : Proc) (transform : Option PyErr)
    (schemaStmts : List Stmt) (schemaErr : Option PyErr)
    (copyStmts : List Stmt) (copyErr : Option PyErr)
    (st : St) : Outcome :=
  let st1 := { st with fs := st.fs.mkdirParents p.local_folder }
  match st.s3.lookup p.s3_path with
  | none => ⟨[.mkdirEv, .s3Get p.s3_path], st1, some .fileNotFoundError⟩
  | some c =>
    let st2 := { st1 with fs := st1.fs.writeFile p.file_path c }
    let pre := [Ev.mkdirEv, Ev.s3Get p.s3_path, Ev.transformEv]
    match transform with
    | some e => ⟨pre, st2, some e⟩
    | none =>
      let db0 : DBSession := { committed := st2.db, pending := [] }
      let db1 := db0.execAll schemaStmts
      let schemaEvs := schemaStmts.map Ev.dbExec
      match schemaErr with
      | some e => ⟨pre ++ schemaEvs, { st2 with db := db1.committed }, some e⟩
      | none =>
        let db2 := db1.execAll copyStmts
        let copyEvs := copyStmts.map Ev.dbExec
        match copyErr with
        | some e => ⟨pre ++ schemaEvs ++ copyEvs, { st2 with db := db2.committed }, some e⟩
        | none =>
          let db3 := db2.commit
          let st3 := { st2 with db := db3.committed }
          let st4 := { st3 with fs := cleanup st3.fs p.file_path p.local_folder }
          ⟨pre ++ schemaEvs ++ copyEvs ++ [.dbCommit, .cleanupEv], st4, none⟩

/-- `FetchLoadProcessor.sftp_load_from_s3_to_db` (lines 233-243): the
bulk-directory variant; the recursive download is modelled as an event plus
an injectable failure (`getErr`), and a commit is issued right after the
session opens — before `pre_copy_sql` runs — and again after `copy_to_db`. -/
def sftpLoadFromS3ToDb (p : Proc) (getErr : Option PyErr)
    (transform : Option PyErr)
    (schemaStmts : List Stmt) (schemaErr : Option PyErr)
    (copyStmts : List Stmt) (copyErr : Option PyErr)
    (st : St) : Outcome :=
  let st1 := { st with fs := st.fs.mkdirParents p.local_folder }
  match getErr with
  | some e => ⟨[.mkdirEv, .s3GetCli], st1, some e⟩
  | none =>
    let pre := [Ev.mkdirEv, Ev.s3GetCli, Ev.transformEv]
    match transform with
    | some e => ⟨pre, st1, some e⟩
    | none =>
      let db0 : DBSession := { committed := st1.db, pending := [] }
      let db1 := db0.commit
      let db2 := db1.execAll schemaStmts
      let schemaEvs := schemaStmts.map Ev.dbExec
      match schemaErr with
      | some e => ⟨pre ++ [.dbCommit] ++ schemaEvs, { st1 with db := db2.committed }, some e⟩
      | none =>
        let db3 := db2.execAll copyStmts
        let copyEvs := copyStmts.map Ev.dbExec
        match copyErr with
        | some e =>
          ⟨pre ++ [.dbCommit] ++ schemaEvs ++ copyEvs, { st1 with db := db3.committed }, some e⟩
        | none =>
          let db4 := db3.commit
          let st2 := { st1 with db := db4.committed }
          let st3 := { st2 with fs := cleanup st2.fs p.file_path p.local_folder }
          ⟨pre ++ [.dbCommit] ++ schemaEvs ++ copyEvs ++ [.dbCommit, .cleanupEv], st3, none⟩

/-! ### CLI argument resolution (fetchload.py lines 45-74, hitwise.py 84-105) -/

def isLeapYear (y : Nat) : Bool :=
  (y % 4 = 0 && y % 100 ≠ 0) || y % 400 = 0

def daysInMonth (y m : Nat) : Nat :=
  if m = 2 then (if isLeapYear y then 29 else 28)
  else if m = 4 || m = 6 || m = 9 || m = 11 then 30
  else 31

/-- Decimal value of a digit sequence. -/
def digitsVal (s : List Char) : Nat :=
  s.foldl (fun a c => a * 10 + (c.toNat - 48)) 0

/-- `datetime.strptime(datestr, '%Y-%m-%d').date()`: a 4-digit year, a
1-2 digit month and a 1-2 digit day separated by hyphens, forming a valid
calendar date; anything else raises `ValueError` (here: `none`). -/
def strptimeIso (s : String) : Option Date :=
  match s.data.splitOn '-' with
  | [ys, ms, ds] =>
    if ys.length = 4 && ys.all Char.isDigit
        && decide (0 < ms.length) && decide (ms.length ≤ 2) && ms.all Char.isDigit
        && decide (0 < ds.length) && decide (ds.length ≤ 2) && ds.all Char.isDigit then
      let y := digitsVal ys
      let m := digitsVal ms
      let d := digitsVal ds
      if decide (1 ≤ m) && decide (m ≤ 12) && decide (1 ≤ d) && decide (d ≤ daysInMonth y m) then
        some ⟨y, m, d⟩
      else none
    else none
  | _ => none

/-- Errors of argument resolution: `argparse.ArgumentTypeError` (raised by
`iso_date` and by the fetch/load flag check), argparse's own usage error
for a missing/invalid option, and `KeyError` on the file-format mapping. -/
inductive ArgError
  | argumentTypeError (msg : String)
  | usageError
  | keyError
  deriving DecidableEq, Repr

/-- `iso_date` (fetchload.py lines 45-50). -/
def iso_date (datestr : String) : Except ArgError Date :=
  match strptimeIso datestr with
  | some d => .ok d
  | none =>
      .error (.argumentTypeError (datestr ++ " is not a valid date in YYYY-MM-DD format"))

/-- The process-level command line, pre-tokenized into the option values
argparse extracts (argparse tokenization itself is an external collaborator
per §1 of the spec). -/
structure CmdLine where
  rundate : Option String
  fetch : Bool
  load : Bool
  fileformat : Option String
  deriving DecidableEq, Repr

/-- The namespace returned by `parser.parse_args()`. -/
structure Args where
  run_date : Date
  fetch : Bool
  load : Bool
  fileformat : Option String
  deriving DecidableEq, Repr

/-- The `argparse.ArgumentParser(argv)` value: `argv` only lands in the
parser's first (program name/description) slot; the configured options are
fixed by `parse_arguments`. -/
structure ArgParser where
  prog : List String
  fileformats : List String
  deriving DecidableEq, Repr

/-- `parser.parse_args()` on the process command line: `--rundate` is
required and converted by `iso_date` (a conversion failure surfaces as the
`ArgumentTypeError` that `iso_date` raised); `--fileformat`, when given,
must be one of the configured choices. -/
def parseArgs (parser : ArgParser) (cmd : CmdLine) : Except ArgError Args :=
  match cmd.rundate with
  | none => .error .usageError
  | some s =>
    match iso_date s with
    | .error e => .error e
    | .ok d =>
      match cmd.fileformat with
      | some f =>
        if parser.fileformats.contains f then .ok ⟨d, cmd.fetch, cmd.load, some f⟩
        else .error .usageError
      | none => .ok ⟨d, cmd.fetch, cmd.load, none⟩

/-- `parse_arguments` (fetchload.py lines 53-74): builds the parser (with
`argv` as its program-name argument), parses the process command line, and
rejects a run requesting neither `--fetch` nor `--load`. -/
def parse_arguments (argv : List String) (fileformats : List String)
    (cmd : CmdLine) : Except ArgError Args :=
  let parser : ArgParser := { prog := argv, fileformats := fileformats }
  match parseArgs parser cmd with
  | .error e => .error e
  | .ok args =>
    if !args.fetch && !args.load then
      .error (.argumentTypeError "You must specify either --fetch, --load or both")
    else .ok args

/-- The `file_formats` keys of `hitwise.main`. -/
def hitwiseFileFormats : List String := ["competitor_rankings"]

/-- `hitwise.main` (hitwise.py lines 84-105) up to processor construction:
arguments are resolved first; only on success is the file-format entry
looked up (a `--fileformat` value absent from the mapping raises
`KeyError`) and the processor constructed (recorded as `constructEv`). -/
def mainModel (cfg : Cfg) (argv : List String) (cmd : CmdLine) :
    List Ev × Except ArgError Proc :=
  match parse_arguments argv hitwiseFileFormats cmd with
  | .error e => ([], .error e)
  | .ok args =>
    match args.fileformat with
    | some "competitor_rankings" =>
      ([.constructEv],
        .ok (mkProcessor cfg args.run_date "hitwise"
          (some "competitor_rankings_weekly.xls") "bytes"))
    | _ => ([], .error .keyError)

/-! ### The concrete fetch scenario of claim C3 -/

def cfgC3 : Cfg := ⟨"root", "bucket", true⟩

def dateC3 : Date := ⟨2023, 5, 1⟩

def procC3 : Proc :=
  mkProcessor cfgC3 dateC3 "hitwise" (some "competitor_rankings_weekly.xls") "bytes"

def runC3 : Outcome :=
  fetchAndArchive cfgC3 procC3 (.ok (.bytes ['A', 'B', 'C'])) false ⟨FS.empty, [], []⟩

/-! ### Auxiliary predicates and concrete scenarios for the other claims -/

/-- Scanning the trace in order: no cleanup event occurs before the first
archive upload event. -/
def uploadPrecedesCleanup : List Ev → Bool
  | [] => true
  | .cleanupEv :: _ => false
  | .s3Put _ _ :: _ => true
  | _ :: rest => uploadPrecedesCleanup rest

/-- Well-formedness of a row-sequence payload for the delimited staging
encoding: rows are nonempty and fields contain neither the delimiter nor a
line terminator (`csv.writer` would otherwise quote them, which the
round-trip claim does not exercise). -/
def csvWF : Payload → Prop
  | .rows r => ∀ row ∈ r, row ≠ [] ∧ ∀ f ∈ row, ¬ (',' ∈ f) ∧ ¬ ('\n' ∈ f)
  | _ => True

/-- The bulk-directory load scenario of claim C2: the schema hook executes
one `create table` DDL statement and the copy step fails. -/
def procC2 : Proc := mkProcessor cfgC3 dateC3 "hitwise" none "generator"

def ddlC2 : Stmt := "create table if not exists staging_t"

def runC2 : Outcome :=
  sftpLoadFromS3ToDb procC2 none none [ddlC2] none [] (some .transportError)
    ⟨FS.empty, [], []⟩

/-- A filesystem with an absent staging file and a nonempty staging
directory, exercising the tolerance branches of `_cleanup`. -/
def fs0C5 : FS := ⟨[(["a", "b", "f"], ['x'])], [["a"], ["a", "b"]]⟩

/-- A row-sequence payload and a `'generator'`-tagged processor for the
staging round-trip claim. -/
def payC7 : Payload := .rows [[['a'], ['b']], [['c']]]

def procC7 : Proc := mkProcessor cfgC3 dateC3 "api" none "generator"

/-! ## Helper lemmas -/

theorem lookup_filter_self (l : List (LPath × Content)) (p : LPath) :
    (l.filter (fun f => !(f.1 == p))).lookup p = none := by
  induction l with
  | nil => rfl
  | cons a l ih =>
    cases hb : a.1 == p with
    | true => simpa [List.filter_cons, hb] using ih
    | false =>
      have hb2 : (p == a.1) = false :=
        beq_eq_false_iff_ne.mpr (Ne.symm (beq_eq_false_iff_ne.mp hb))
      simp only [List.filter_cons, hb, Bool.not_false, if_true, List.lookup, hb2]
      exact ih

theorem contains_filter_self (l : List LPath) (p : LPath) :
    (l.filter (fun d => !(d == p))).contains p = false := by
  induction l with
  | nil => rfl
  | cons a l ih =>
    cases hb : a == p with
    | true => simpa [List.filter_cons, hb] using ih
    | false =>
      have hb2 : (p == a) = false :=
        beq_eq_false_iff_ne.mpr (Ne.symm (beq_eq_false_iff_ne.mp hb))
      simp only [List.filter_cons, hb, Bool.not_false, if_true, List.contains_cons, hb2,
        Bool.false_or]
      exact ih

theorem unlink_error_cases (fs : FS) (p : LPath) (e : PyErr) (h : fs.unlink p = .error e) :
    e = .fileNotFoundError ∨ e = .isADirectoryError := by
  unfold FS.unlink at h
  split_ifs at h <;> first
    | (injection h with h2; subst h2; simp)
    | simp at h

theorem rmdir_error_isOSError (fs : FS) (p : LPath) (e : PyErr) (h : fs.rmdir p = .error e) :
    e.isOSError = true := by
  unfold FS.rmdir at h
  split_ifs at h <;> first
    | (injection h with h2; subst h2; rfl)
    | simp at h

theorem unlink_ok (fs : FS) (p : LPath) (fs1 : FS) (h : fs.unlink p = .ok fs1) :
    fs1 = { fs with files := fs.files.filter (fun f => !(f.1 == p)) } := by
  unfold FS.unlink at h
  split_ifs at h <;> first
    | (injection h with h2; exact h2.symm)
    | simp at h

theorem rmdir_ok (fs : FS) (p : LPath) (fs1 : FS) (h : fs.rmdir p = .ok fs1) :
    fs1 = { fs with dirs := fs.dirs.filter (fun d => !(d == p)) } := by
  unfold FS.rmdir at h
  split_ifs at h <;> first
    | (injection h with h2; exact h2.symm)
    | simp at h

theorem rmdirIfEmptyE_ok (fs : FS) (p : LPath) :
    rmdirIfEmptyE fs p = .ok (rmdirIfEmpty fs p) := by
  unfold rmdirIfEmptyE rmdirIfEmpty
  cases h : fs.rmdir p with
  | ok fs1 => rfl
  | error e => simp [rmdir_error_isOSError fs p e h]

theorem cleanupE_ok (fs : FS) (fp lf : LPath) :
    cleanupE fs fp lf = .ok (rmdirIfEmpty (unlinkCaught fs fp) lf) := by
  unfold cleanupE unlinkCaught
  cases h : fs.unlink fp with
  | ok fs1 => simp [rmdirIfEmptyE_ok]
  | error e =>
    rcases unlink_error_cases fs fp e h with rfl | rfl <;> simp [rmdirIfEmptyE_ok]

theorem cleanup_eq (fs : FS) (fp lf : LPath) :
    cleanup fs fp lf = rmdirIfEmpty (unlinkCaught fs fp) lf := by
  unfold cleanup
  rw [cleanupE_ok]

theorem rmdirIfEmpty_files (fs : FS) (p : LPath) : (rmdirIfEmpty fs p).files = fs.files := by
  unfold rmdirIfEmpty
  cases h : fs.rmdir p with
  | ok fs1 => rw [rmdir_ok fs p fs1 h]
  | error e => rfl

theorem isFile_rmdirIfEmpty (fs : FS) (d p : LPath) :
    (rmdirIfEmpty fs d).isFile p = fs.isFile p := by
  unfold FS.isFile
  rw [rmdirIfEmpty_files]

theorem unlinkCaught_isFile_self (fs : FS) (p : LPath) :
    (unlinkCaught fs p).isFile p = false := by
  unfold unlinkCaught
  cases h : fs.unlink p with
  | ok fs1 =>
    rw [unlink_ok fs p fs1 h]
    unfold FS.isFile
    simp only [lookup_filter_self, Option.isSome_none]
  | error e =>
    by_cases h1 : fs.isFile p
    · exfalso
      unfold FS.unlink at h
      rw [if_pos h1] at h
      exact Except.noConfusion h
    · simpa using h1

theorem unlinkCaught_of_not_isFile (fs : FS) (p : LPath) (h : fs.isFile p = false) :
    unlinkCaught fs p = fs := by
  unfold unlinkCaught
  cases hr : fs.unlink p with
  | ok fs1 =>
    exfalso
    unfold FS.unlink at hr
    split_ifs at hr <;> simp_all
  | error e => rfl

theorem rmdirIfEmpty_of_nonempty (fs : FS) (p : LPath) (h : fs.dirNonempty p = true) :
    rmdirIfEmpty fs p = fs := by
  unfold rmdirIfEmpty
  cases hr : fs.rmdir p with
  | ok fs1 =>
    exfalso
    unfold FS.rmdir at hr
    split_ifs at hr <;> simp_all
  | error e => rfl

theorem rmdirIfEmpty_idem (fs : FS) (p : LPath) :
    rmdirIfEmpty (rmdirIfEmpty fs p) p = rmdirIfEmpty fs p := by
  cases h : fs.rmdir p with
  | ok fs1 =>
    have hd : rmdirIfEmpty fs p = fs1 := by unfold rmdirIfEmpty; rw [h]
    have hfs1 := rmdir_ok fs p fs1 h
    have hnd : fs1.isDir p = false := by
      rw [hfs1]; unfold FS.isDir; exact contains_filter_self fs.dirs p
    rw [hd]
    unfold rmdirIfEmpty
    cases hr : fs1.rmdir p with
    | ok fs2 =>
      exfalso
      unfold FS.rmdir at hr
      rw [hnd] at hr
      split_ifs at hr <;> simp_all
    | error e => rfl
  | error e =>
    have hd : rmdirIfEmpty fs p = fs := by unfold rmdirIfEmpty; rw [h]
    rw [hd, hd]

theorem cleanup_idem (fs : FS) (fp lf : LPath) :
    cleanup (cleanup fs fp lf) fp lf = cleanup fs fp lf := by
  rw [cleanup_eq, cleanup_eq]
  have h1 : (rmdirIfEmpty (unlinkCaught fs fp) lf).isFile fp = false := by
    rw [isFile_rmdirIfEmpty]
    exact unlinkCaught_isFile_self fs fp
  rw [unlinkCaught_of_not_isFile _ _ h1, rmdirIfEmpty_idem]

theorem execAll_committed (db : DBSession) (ss : List Stmt) :
    (db.execAll ss).committed = db.committed := by
  induction ss generalizing db with
  | nil => rfl
  | cons s rest ih =>
    show ((db.exec s).execAll rest).committed = db.committed
    rw [ih]
    rfl

theorem isFile_writeFile_self (fs : FS) (p : LPath) (c : Content) :
    (fs.writeFile p c).isFile p = true := by
  simp [FS.writeFile, FS.isFile, List.lookup]

theorem not_mem_csvRow (a : Char) (row : List Content) (ha : a ≠ ',')
    (h : ∀ f ∈ row, a ∉ f) : a ∉ csvRow row := by
  induction row with
  | nil => simp [csvRow, List.intercalate]
  | cons f rest ih =>
    cases rest with
    | nil =>
      simpa [csvRow, List.intercalate, List.intersperse] using h f (by simp)
    | cons g rest2 =>
      have hcons : csvRow (f :: g :: rest2) = f ++ ',' :: csvRow (g :: rest2) := by
        simp [csvRow, List.intercalate, List.intersperse]
      rw [hcons]
      intro hmem
      rcases List.mem_append.mp hmem with h1 | h1
      · exact h f (by simp) h1
      · rcases List.mem_cons.mp h1 with rfl | h2
        · exact ha rfl
        · exact ih (fun x hx => h x (List.mem_cons_of_mem f hx)) h2

theorem splitOn_csvEncode (rows : List (List Content))
    (h : ∀ row ∈ rows, ∀ f ∈ row, ¬ ('\n' ∈ f)) :
    (csvEncode rows).splitOn '\n' = rows.map csvRow ++ [[]] := by
  induction rows with
  | nil => rfl
  | cons r rest ih =>
    have hr : '\n' ∉ csvRow r := not_mem_csvRow _ _ (by decide) (h r (by simp))
    have henc : csvEncode (r :: rest) = csvRow r ++ '\n' :: csvEncode rest := by
      simp [csvEncode]
    have hx : ∀ x ∈ csvRow r, ¬((x == '\n') = true) := by
      intro x hxm hxe
      exact hr (eq_of_beq hxe ▸ hxm)
    rw [henc]
    show List.splitOnP (· == '\n') (csvRow r ++ '\n' :: csvEncode rest) = _
    rw [List.splitOnP_first _ _ hx '\n' (by simp) (csvEncode rest)]
    have ih2 := ih (fun row hrow => h row (List.mem_cons_of_mem r hrow))
    show _ :: List.splitOn '\n' (csvEncode rest) = _
    rw [ih2]
    simp

theorem csvDecode_csvEncode (rows : List (List Content)) (h : csvWF (.rows rows)) :
    csvDecode (csvEncode rows) = rows := by
  unfold csvWF at h
  unfold csvDecode
  rw [splitOn_csvEncode rows (fun row hr f hf => ((h row hr).2 f hf).2)]
  rw [List.dropLast_concat]
  calc (rows.map csvRow).map (fun line => line.splitOn ',')
      = rows.map (fun row => (csvRow row).splitOn ',') := by
        rw [List.map_map]
        rfl
    _ = rows.map id := List.map_congr_left (fun row hrow =>
        List.splitOn_intercalate row ',' (fun f hf => ((h row hrow).2 f hf).1) (h row hrow).1)
    _ = rows := List.map_id rows

theorem parseArgs_flags (parser : ArgParser) (cmd : CmdLine) (args : Args)
    (h : parseArgs parser cmd = .ok args) :
    args.fetch = cmd.fetch ∧ args.load = cmd.load := by
  obtain ⟨rd, cf, cl, ffmt⟩ := cmd
  unfold parseArgs at h
  rcases rd with _ | s
  · simp at h
  · dsimp only at h
    rcases hi : iso_date s with e | d <;> rw [hi] at h
    · simp at h
    · rcases ffmt with _ | f
      · dsimp only at h
        injection h with h2
        subst h2
        exact ⟨rfl, rfl⟩
      · dsimp only at h
        split_ifs at h
        all_goals first
          | (injection h with h2; subst h2; exact ⟨rfl, rfl⟩)
          | simp at h

/-! ## Claim theorems -/

/-- Claim C1: in `load_from_s3_to_db`, if `pre_copy_transform`,
`pre_copy_sql` or `copy_to_db` raises, the exception propagates,
`db.commit` is never executed (the warehouse keeps exactly its prior
committed statements, so no partial data becomes visible) and `_cleanup` is
never invoked; conversely `_cleanup` runs only when the operation reaches
its end successfully. -/
theorem load_abort_never_commits (p : Proc) (tr : Option PyErr)
    (ss : List Stmt) (se : Option PyErr) (cs : List Stmt) (ce : Option PyErr) (st : St) :
    (tr ≠ none ∨ se ≠ none ∨ ce ≠ none →
      (loadFromS3ToDb p tr ss se cs ce st).err ≠ none ∧
      Ev.dbCommit ∉ (loadFromS3ToDb p tr ss se cs ce st).trace ∧
      Ev.cleanupEv ∉ (loadFromS3ToDb p tr ss se cs ce st).trace ∧
      (loadFromS3ToDb p tr ss se cs ce st).st.db = st.db) ∧
    (Ev.cleanupEv ∈ (loadFromS3ToDb p tr ss se cs ce st).trace →
      (loadFromS3ToDb p tr ss se cs ce st).err = none) := by
  unfold loadFromS3ToDb
  rcases tr with _ | e1 <;> rcases se with _ | e2 <;> rcases ce with _ | e3 <;>
    cases hl : st.s3.lookup p.s3_path <;>
      simp only [hl] <;>
        simp_all [execAll_committed, List.mem_map]

theorem load_abort_never_commits_witness :
    (loadFromS3ToDb procC3 (some .typeError) [] none [] none ⟨FS.empty, [], []⟩).err ≠ none ∧
    Ev.dbCommit ∉
      (loadFromS3ToDb procC3 (some .typeError) [] none [] none ⟨FS.empty, [], []⟩).trace := by
  have h := (load_abort_never_commits procC3 (some .typeError) [] none [] none
    ⟨FS.empty, [], []⟩).1 (Or.inl (by simp))
  exact ⟨h.1, h.2.1⟩

/-- Claim C2 counterexample: in `sftp_load_from_s3_to_db` the first commit
is issued before `pre_copy_sql` runs, so when `copy_to_db` fails the schema
DDL is not durably committed: with one schema statement and a failing copy
step, a commit does appear in the trace before the schema execution, yet
the warehouse ends with no committed statements at all — the claim that
the pre-copy commit guarantees the table exists is false. -/
theorem sftp_precommit_not_durable :
    runC2.trace = [.mkdirEv, .s3GetCli, .transformEv, .dbCommit, .dbExec ddlC2] ∧
    runC2.err = some .transportError ∧
    runC2.st.db = [] := ⟨rfl, rfl, rfl⟩

/-- Claim C2 (amended): in `sftp_load_from_s3_to_db` a commit is issued
once before and once after the schema/copy steps on the success path, but
the pre-copy commit precedes the schema DDL, so it does not make the schema
durable: if the copy step fails, the exception propagates and the
warehouse's committed statements are unchanged — the schema DDL executed
after the first commit is lost, and only the post-copy commit makes schema
and rows visible. -/
theorem sftp_load_two_commits (p : Proc) (ss cs : List Stmt) (ce : Option PyErr) (st : St) :
    (sftpLoadFromS3ToDb p none none ss none cs none st).trace =
      [.mkdirEv, .s3GetCli, .transformEv, .dbCommit] ++ ss.map Ev.dbExec ++
        cs.map Ev.dbExec ++ [.dbCommit, .cleanupEv] ∧
    (ce ≠ none →
      (sftpLoadFromS3ToDb p none none ss none cs ce st).err = ce ∧
      (sftpLoadFromS3ToDb p none none ss none cs ce st).st.db = st.db) := by
  constructor
  · simp [sftpLoadFromS3ToDb]
  · intro hce
    rcases ce with _ | e
    · exact absurd rfl hce
    · constructor
      · simp [sftpLoadFromS3ToDb]
      · simp [sftpLoadFromS3ToDb, execAll_committed, DBSession.commit]

theorem sftp_load_two_commits_witness :
    (sftpLoadFromS3ToDb procC2 none none [ddlC2] none [] (some .typeError)
      ⟨FS.empty, [], []⟩).st.db = [] := by
  have h := (sftp_load_two_commits procC2 [ddlC2] [] (some .typeError)
    ⟨FS.empty, [], []⟩).2 (by simp)
  exact h.2

/-- Claim C3: for run date 2023-05-01, source system `hitwise`, filename
`competitor_rankings_weekly.xls`, `api_return_type` `'bytes'`,
fetch-enabled configuration, and `fetch_from_api` returning the bytes
`ABC`: `fetch_and_archive_to_s3` writes the staging file
`root/hitwise/20230501/competitor_rankings_weekly.xls` containing exactly
`ABC`, uploads an object with the same content to
`bucket/hitwise/20230501/competitor_rankings_weekly.xls`, then deletes the
staging file and removes the (now empty) staging directory. -/
theorem fetch_scenario_hitwise :
    runC3.trace =
      [.mkdirEv, .apiRead,
       .fsWrite ["root", "hitwise", "20230501", "competitor_rankings_weekly.xls"] ['A', 'B', 'C'],
       .s3Put "bucket/hitwise/20230501/competitor_rankings_weekly.xls" ['A', 'B', 'C'],
       .cleanupEv] ∧
    runC3.st.s3.lookup "bucket/hitwise/20230501/competitor_rankings_weekly.xls" =
      some ['A', 'B', 'C'] ∧
    runC3.st.fs.isFile ["root", "hitwise", "20230501", "competitor_rankings_weekly.xls"] =
      false ∧
    runC3.st.fs.isDir ["root", "hitwise", "20230501"] = false ∧
    runC3.err = none :=
  ⟨rfl, rfl, rfl, rfl, rfl⟩

/-- Claim C4: path resolution in the processor constructor is a pure
deterministic function of its inputs, and the staging path and the archive
key share the identical relative structure `source-system/YYYYMMDD[/filename]`,
differing only in their root (staging root versus bucket). -/
theorem pathResolver_pure_parallel (cfg : Cfg) (rd : Date) (src : String)
    (fn : Option String) (art : String) :
    (mkProcessor cfg rd src fn art).file_path =
      cfg.ETL_DATA_HOME :: relComponents src rd fn ∧
    (mkProcessor cfg rd src fn art).s3_path =
      renderKey (cfg.ETL_S3_BUCKET :: relComponents src rd fn) ∧
    (∀ cfg2 rd2 src2 fn2 art2, cfg = cfg2 → rd = rd2 → src = src2 → fn = fn2 → art = art2 →
      (mkProcessor cfg rd src fn art).file_path = (mkProcessor cfg2 rd2 src2 fn2 art2).file_path ∧
      (mkProcessor cfg rd src fn art).s3_path = (mkProcessor cfg2 rd2 src2 fn2 art2).s3_path) := by
  refine ⟨?_, ?_, ?_⟩
  · by_cases h : truthy fn <;>
      simp [mkProcessor, relComponents, renderKey, h, String.intercalate,
        String.intercalate.go, String.append_assoc]
  · by_cases h : truthy fn <;>
      simp [mkProcessor, relComponents, renderKey, h, String.intercalate,
        String.intercalate.go, String.append_assoc]
  · intro cfg2 rd2 src2 fn2 art2 h1 h2 h3 h4 h5
    subst h1; subst h2; subst h3; subst h4; subst h5
    exact ⟨rfl, rfl⟩

theorem pathResolver_pure_parallel_witness :
    (mkProcessor cfgC3 dateC3 "hitwise" (some "f.xls") "bytes").file_path =
      (mkProcessor cfgC3 dateC3 "hitwise" (some "f.xls") "bytes").file_path ∧
    (mkProcessor cfgC3 dateC3 "hitwise" (some "f.xls") "bytes").s3_path =
      (mkProcessor cfgC3 dateC3 "hitwise" (some "f.xls") "bytes").s3_path := by
  have h := pathResolver_pure_parallel cfgC3 dateC3 "hitwise" (some "f.xls") "bytes"
  exact h.2.2 cfgC3 dateC3 "hitwise" (some "f.xls") "bytes" rfl rfl rfl rfl rfl

/-- Claim C5: `_cleanup` never raises for any filesystem state (all its
possible exceptions are caught), it is idempotent, it tolerates the staging
file being absent, and it tolerates (and does not remove) a nonempty
staging directory. -/
theorem cleanup_total_and_idempotent (fs : FS) (fp lf : LPath) :
    cleanupE fs fp lf = .ok (cleanup fs fp lf) ∧
    cleanup (cleanup fs fp lf) fp lf = cleanup fs fp lf ∧
    (fs.isFile fp = false → unlinkCaught fs fp = fs) ∧
    ((unlinkCaught fs fp).dirNonempty lf = true → cleanup fs fp lf = unlinkCaught fs fp) := by
  refine ⟨?_, cleanup_idem fs fp lf, unlinkCaught_of_not_isFile fs fp, ?_⟩
  · rw [cleanup_eq]
    exact cleanupE_ok fs fp lf
  · intro h
    rw [cleanup_eq]
    exact rmdirIfEmpty_of_nonempty _ _ h

theorem cleanup_total_and_idempotent_witness :
    unlinkCaught fs0C5 ["a", "b", "g"] = fs0C5 ∧
    cleanup fs0C5 ["a", "b", "g"] ["a", "b"] = unlinkCaught fs0C5 ["a", "b", "g"] := by
  have h := cleanup_total_and_idempotent fs0C5 ["a", "b", "g"] ["a", "b"]
  exact ⟨h.2.2.1 (by decide), h.2.2.2 (by decide)⟩

/-- Claim C6: when the fetch-enabled configuration flag is false,
`fetch_and_archive_to_s3` and `sftp_fetch_and_archive_to_s3` return
immediately after logging: the world state (staging filesystem, archive,
warehouse) is exactly the input state, no exception is raised, and the
trace holds only the log event — zero archive writes and zero source
reads. -/
theorem fetch_disabled_no_effects (cfg : Cfg) (p : Proc) (fetch : Except PyErr Payload)
    (putFails : Bool) (fl : Except PyErr (List String)) (remote : String → Content) (st : St)
    (h : cfg.FETCH_DATA_FROM_SOURCE = false) :
    fetchAndArchive cfg p fetch putFails st = ⟨[.logEv], st, none⟩ ∧
    sftpFetchAndArchive cfg p fl remote st = ⟨[.logEv], st, none⟩ := by
  constructor <;> simp [fetchAndArchive, sftpFetchAndArchive, h]

theorem fetch_disabled_no_effects_witness :
    fetchAndArchive ⟨"root", "bucket", false⟩ procC3 (.ok (.bytes ['A'])) false
      ⟨FS.empty, [], []⟩ = ⟨[.logEv], ⟨FS.empty, [], []⟩, none⟩ ∧
    sftpFetchAndArchive ⟨"root", "bucket", false⟩ procC3 (.ok []) (fun _ => [])
      ⟨FS.empty, [], []⟩ = ⟨[.logEv], ⟨FS.empty, [], []⟩, none⟩ :=
  fetch_disabled_no_effects ⟨"root", "bucket", false⟩ procC3 (.ok (.bytes ['A'])) false
    (.ok []) (fun _ => []) ⟨FS.empty, [], []⟩ rfl

/-- Claim C7: for each declared payload-shape tag, `fetch_and_archive_to_s3`
stages the payload with the encoding matching the tag (the staged file's
contents are exactly `stagedContent`), and that staged encoding
round-trips: decoding the staged contents through the matching decode
recovers the payload (for row sequences, under the delimiter-free
well-formedness the csv quoting machinery would otherwise handle). -/
theorem staging_encoding_roundtrip (cfg : Cfg) (p : Proc) (pay : Payload) (c : Content)
    (putFails : Bool) (st : St)
    (hen : cfg.FETCH_DATA_FROM_SOURCE = true)
    (hc : stagedContent p.api_return_type pay = .ok c)
    (hwf : csvWF pay) :
    Ev.fsWrite p.file_path c ∈ (fetchAndArchive cfg p (.ok pay) putFails st).trace ∧
    decodePayload p.api_return_type c = pay := by
  constructor
  · unfold fetchAndArchive
    rw [hen]
    unfold stagedContent at hc
    by_cases h1 : p.api_return_type = "generator" <;>
      by_cases h2 : p.api_return_type = "list" <;>
        rcases pay with b | t | r <;>
          simp_all [putToS3] <;> cases putFails <;> simp
  · rcases pay with b | t | r
    · by_cases h1 : p.api_return_type = "generator"
      · rw [stagedContent] at hc
        simp [h1] at hc
      · by_cases h2 : p.api_return_type = "list"
        · rw [stagedContent] at hc
          simp [h1, h2] at hc
        · rw [stagedContent] at hc
          simp [h1, h2] at hc
          subst hc
          simp [decodePayload, h1, h2]
    · by_cases h1 : p.api_return_type = "generator"
      · rw [stagedContent] at hc
        simp [h1] at hc
      · by_cases h2 : p.api_return_type = "list"
        · rw [stagedContent] at hc
          simp [h1, h2] at hc
          subst hc
          simp [decodePayload, h1, h2]
        · rw [stagedContent] at hc
          simp [h1, h2] at hc
    · by_cases h1 : p.api_return_type = "generator"
      · rw [stagedContent] at hc
        simp [h1] at hc
        subst hc
        have hrt := csvDecode_csvEncode r hwf
        simp [decodePayload, h1, hrt]
      · by_cases h2 : p.api_return_type = "list"
        · rw [stagedContent] at hc
          simp [h1, h2] at hc
        · rw [stagedContent] at hc
          simp [h1, h2] at hc

theorem staging_encoding_roundtrip_witness :
    Ev.fsWrite procC7.file_path ['a', ',', 'b', '\n', 'c', '\n'] ∈
      (fetchAndArchive cfgC3 procC7 (.ok payC7) false ⟨FS.empty, [], []⟩).trace ∧
    decodePayload procC7.api_return_type ['a', ',', 'b', '\n', 'c', '\n'] = payC7 :=
  staging_encoding_roundtrip cfgC3 procC7 payC7 ['a', ',', 'b', '\n', 'c', '\n']
    false ⟨FS.empty, [], []⟩ rfl rfl (by simp only [payC7, csvWF]; decide)

/-- Claim C8: in the fetch phase the archive upload always happens strictly
before local staging cleanup (no cleanup event precedes the first upload
event, and any cleanup implies an upload occurred), and if the archive
transfer raises, the run aborts with cleanup never invoked and the staged
file still in place. -/
theorem upload_strictly_before_cleanup (cfg : Cfg) (p : Proc) (fetch : Except PyErr Payload)
    (putFails : Bool) (st : St) :
    uploadPrecedesCleanup (fetchAndArchive cfg p fetch putFails st).trace = true ∧
    (Ev.cleanupEv ∈ (fetchAndArchive cfg p fetch putFails st).trace →
      ∃ k c, Ev.s3Put k c ∈ (fetchAndArchive cfg p fetch putFails st).trace) ∧
    (putFails = true →
      Ev.cleanupEv ∉ (fetchAndArchive cfg p fetch putFails st).trace ∧
      ((∃ k c, Ev.s3Put k c ∈ (fetchAndArchive cfg p fetch putFails st).trace) →
        (fetchAndArchive cfg p fetch putFails st).err ≠ none)) ∧
    (putFails = true → ∀ pth c,
      Ev.fsWrite pth c ∈ (fetchAndArchive cfg p fetch putFails st).trace →
      (fetchAndArchive cfg p fetch putFails st).st.fs.isFile pth = true) := by
  unfold fetchAndArchive putToS3
  cases hF : cfg.FETCH_DATA_FROM_SOURCE <;>
    rcases fetch with e | (b | t | r) <;>
      by_cases h1 : p.api_return_type = "generator" <;>
        by_cases h2 : p.api_return_type = "list" <;>
          cases putFails <;>
            simp_all [uploadPrecedesCleanup, isFile_writeFile_self]

theorem upload_strictly_before_cleanup_witness :
    Ev.cleanupEv ∉
      (fetchAndArchive cfgC3 procC3 (.ok (.bytes ['A'])) true ⟨FS.empty, [], []⟩).trace :=
  ((upload_strictly_before_cleanup cfgC3 procC3 (.ok (.bytes ['A'])) true
    ⟨FS.empty, [], []⟩).2.2.1 rfl).1

/-- Claim C9: argument resolution fails before any component is
constructed: a `--rundate` value that does not parse as `YYYY-MM-DD` makes
`iso_date` raise an `ArgumentTypeError` and `main` abort with an empty
trace (no processor constructed, no I/O), and a command line requesting
neither `--fetch` nor `--load` likewise aborts with an error before the
processor is constructed. -/
theorem arg_errors_before_construction (cfg : Cfg) (argv : List String) (cmd : CmdLine) :
    (∀ s, cmd.rundate = some s → strptimeIso s = none →
      (∃ m, iso_date s = .error (.argumentTypeError m)) ∧
      (∃ e, (mainModel cfg argv cmd).2 = .error e) ∧
      (mainModel cfg argv cmd).1 = []) ∧
    (cmd.fetch = false → cmd.load = false →
      (∃ e, (mainModel cfg argv cmd).2 = .error e) ∧
      (mainModel cfg argv cmd).1 = []) := by
  constructor
  · intro s hs hp
    refine ⟨?_, ?_⟩
    · exact ⟨s ++ " is not a valid date in YYYY-MM-DD format", by simp [iso_date, hp]⟩
    · unfold mainModel parse_arguments parseArgs
      rw [hs]
      simp [iso_date, hp]
  · intro hf hl
    unfold mainModel parse_arguments
    dsimp only
    cases h : parseArgs { prog := argv, fileformats := hitwiseFileFormats } cmd with
    | error e => simp
    | ok args =>
      obtain ⟨h1, h2⟩ := parseArgs_flags _ _ _ h
      simp [h1, h2, hf, hl]

theorem arg_errors_before_construction_witness :
    (mainModel cfgC3 [] ⟨some "not-a-date", true, false, some "competitor_rankings"⟩).1 = [] ∧
    (mainModel cfgC3 [] ⟨some "2023-05-01", false, false, some "competitor_rankings"⟩).1 = [] := by
  have h1 := (arg_errors_before_construction cfgC3 []
    ⟨some "not-a-date", true, false, some "competitor_rankings"⟩).1 "not-a-date" rfl (by rfl)
  have h2 := (arg_errors_before_construction cfgC3 []
    ⟨some "2023-05-01", false, false, some "competitor_rankings"⟩).2 rfl rfl
  exact ⟨h1.2.2, h2.2⟩

/-- Claim C10: the result of `parse_arguments` does not depend on its
`argv` parameter — `argv` only seeds the parser's program-name slot and
`parse_args()` reads the process command line — so any two `argv` values
with the same file formats and the same process command line yield
identical results. -/
theorem parse_arguments_ignores_argv (a1 a2 ff : List String) (cmd : CmdLine) :
    parse_arguments a1 ff cmd = parse_arguments a2 ff cmd := rfl

end Airflow
